import Mathlib

/-!
Verification of the RPC endpoint-pool and failover subsystem of
`mcp_blockchain_rail` (server.py, validators.py, config_manager.py).

The Python code is shallowly embedded as executable Lean functions:

* pool mutations (`set_rpc`, `set_backup_rpc`, `rotate_rpc`) become pure
  functions from the current pool to the outcome and the new pool;
* the failover selector `get_working_rpc` is parameterised by the outcome of
  the health probe (`health_check_rpc` is a network collaborator; its
  `healthy` field is what `get_working_rpc` branches on), mirroring how the
  repository's own unit tests exercise it;
* `health_check_rpc` itself is embedded with explicit Python exception
  semantics, because server.py never imports the `logging` module: every
  `log_with_context(logger, logging.LEVEL, ...)` call raises `NameError`
  when its arguments are evaluated.  In the embeddings of the pool
  operations the logging calls are modelled as effect-free (the intent,
  matching the repository's unit tests); the `health_check_rpc` embedding
  models the defect itself, since there the exception behaviour is the
  property under scrutiny.

Machine integers do not overflow in any of the embedded code paths
(list lengths and chain ids are small), so Nat/Int are used directly.
-/

namespace RAIL

/-! ## validators.py -/

/-- Python regex class `\s` (ASCII range; the URLs handled by the pool are
ASCII).  From the character class `[^\s/]` of `validate_rpc_url`. -/
def pySpace (c : Char) : Bool :=
  c = ' ' || c = '\t' || c = '\n' || c = '\r' || c = '\x0b' || c = '\x0c'

/-- One character admitted by the `[^\s/]` class of `validate_rpc_url`. -/
def hostChar (c : Char) : Bool :=
  !pySpace c && c ≠ '/'

/-- The suffix `[^\s/]+$` of the `validate_rpc_url` regex, on the characters
following the scheme.  Python's `$` also matches just before one trailing
newline, so the list may carry one final `'\n'` after the nonempty run. -/
def hostTail (l : List Char) : Bool :=
  let core := if l.getLast? = some '\n' then l.dropLast else l
  !core.isEmpty && core.all hostChar

/-- `re.match(r"^https?://[^\s/]+$", url)` from validators.validate_rpc_url
(lines 55-73), decided on the character list of the URL. -/
def rpcUrlMatch : List Char → Bool
  | 'h' :: 't' :: 't' :: 'p' :: 's' :: ':' :: '/' :: '/' :: rest => hostTail rest
  | 'h' :: 't' :: 't' :: 'p' :: ':' :: '/' :: '/' :: rest => hostTail rest
  | _ => false

/-- Whether `validate_rpc_url`'s regex accepts the URL. -/
def rpc_url_regex_matches (url : String) : Bool :=
  rpcUrlMatch url.data

/-- ConfigError from exceptions.py: message, numeric code, optional hint. -/
structure ConfigError where
  message : String
  code : Nat
  hint : Option String
deriving Repr, DecidableEq

/-- Error codes of exceptions.ConfigError used below. -/
def ERR_INVALID_CHAIN_ID : Nat := 2005

/-- Error code of exceptions.ConfigError.ERR_INVALID_URL. -/
def ERR_INVALID_URL : Nat := 2006

/-- The netloc of a parsed URL: the characters up to the first slash after
the scheme separator. -/
def takeNetloc : List Char → List Char
  | [] => []
  | c :: rest => if c = '/' then [] else c :: takeNetloc rest

/-- validators.mask_url, for the `scheme://netloc[/path]` URLs the pool
handles: the netloc (up to the first slash after the scheme) is shortened to
first-4 ++ "..." ++ last-4 when longer than 10 characters, and the result
is the scheme, "://", the shortened netloc and the path.  Strings without
an http(s) scheme are formatted with empty scheme and netloc, as
`urllib.parse.urlparse` leaves everything in the path for them. -/
def mask_url (url : String) : String :=
  let fmt (scheme : String) (rest : List Char) : String :=
    let netloc := takeNetloc rest
    let path := rest.drop netloc.length
    let netloc2 :=
      if netloc.length > 10 then
        netloc.take 4 ++ ['.', '.', '.'] ++ netloc.drop (netloc.length - 4)
      else netloc
    scheme ++ "://" ++ String.mk netloc2 ++ String.mk path
  if "https://".data.isPrefixOf url.data then fmt "https" (url.data.drop 8)
  else if "http://".data.isPrefixOf url.data then fmt "http" (url.data.drop 7)
  else "://" ++ url

/-- validators.validate_rpc_url: accept exactly the URLs matched by
`^https?://[^\s/]+$`, otherwise raise `ConfigError` (code 2006) whose
message shows the masked URL.  Runs before any network call. -/
def validate_rpc_url (url : String) : Except ConfigError String :=
  if rpc_url_regex_matches url then .ok url
  else .error ⟨"Invalid RPC URL: " ++ mask_url url, ERR_INVALID_URL,
    some "URL must start with http:// or https://"⟩

/-- validators.validate_chain_id: a chain id must be a positive integer. -/
def validate_chain_id (chain_id : Int) : Except ConfigError Int :=
  if chain_id ≤ 0 then
    .error ⟨"Invalid chain ID: " ++ toString chain_id, ERR_INVALID_CHAIN_ID,
      some "Chain ID must be a positive integer"⟩
  else .ok chain_id

/-! ## config_manager.py -/

/-- The `rpc` section of `ConfigManager.DEFAULT_CONFIG`
(config_manager.py, lines 13-33). -/
structure RpcConfigSection where
  max_backups : Nat
  default_timeout : Nat
  health_check_interval : Nat
deriving Repr, DecidableEq

/-- The default rpc section: max_backups 2, default_timeout 5,
health_check_interval 300. -/
def DEFAULT_CONFIG_rpc : RpcConfigSection := ⟨2, 5, 300⟩

/-- server.py line 39: `MAX_BACKUPS = config_manager.get("rpc",
"max_backups")`, which under the default configuration (no config file, no
environment override) is `DEFAULT_CONFIG["rpc"]["max_backups"]`. -/
def MAX_BACKUPS : Nat := DEFAULT_CONFIG_rpc.max_backups

/-! ## server.py pool mutations -/

/-- Pool update performed by `set_rpc` (server.py lines 266-272) once the
URL has been validated and `verify_rpc` has succeeded: the new URL is
prepended to the existing pool (or starts a fresh one) and the list is
truncated to the first `maxBackups + 1` entries. -/
def set_rpc_pool (maxBackups : Nat) (rpc_url : String) :
    Option (List String) → List String
  | some existing_rpcs => (rpc_url :: existing_rpcs).take (maxBackups + 1)
  | none => [rpc_url]

/-- Outcome of `set_rpc` (server.py lines 251-314): the returned message and
the pool for the chain afterwards. -/
def set_rpc (maxBackups : Nat) (verify : Bool) (chain_id : Int)
    (rpc_url : String) (existing : Option (List String)) :
    String × Option (List String) :=
  match validate_chain_id chain_id with
  | .error e => (e.message, existing)
  | .ok _ =>
    match validate_rpc_url rpc_url with
    | .error e => (e.message, existing)
    | .ok _ =>
      if verify then
        ("Success: RPC URL for chain ID " ++ toString chain_id ++ " set to "
            ++ rpc_url,
          some (set_rpc_pool maxBackups rpc_url existing))
      else
        ("Error: RPC URL " ++ mask_url rpc_url
            ++ " is unreachable or belongs to a different chain ID.",
          existing)

/-- Outcome of `set_backup_rpc` (server.py lines 653-705). -/
inductive BackupOutcome where
  | invalidChain (msg : String)
  | noPrimary (msg : String)
  | duplicate (msg : String)
  | unreachable (msg : String)
  | added (msg : String) (pool : List String)
deriving Repr, DecidableEq

/-- `set_backup_rpc` (server.py lines 653-705), parameterised by the network
outcome `verify` of `verify_rpc`: requires an existing pool, requires the
probe to pass, rejects an endpoint already present, otherwise appends and
truncates to the first `maxBackups + 1` entries. -/
def set_backup_rpc (maxBackups : Nat) (verify : Bool) (chain_id : Int)
    (rpc_url : String) (existing : Option (List String)) : BackupOutcome :=
  match validate_chain_id chain_id with
  | .error e => .invalidChain e.message
  | .ok _ =>
    match existing with
    | none =>
      .noPrimary ("Error: No primary RPC configured for chain ID "
        ++ toString chain_id ++ ". Use set_rpc(" ++ toString chain_id
        ++ ", 'PRIMARY_RPC_URL') first.")
    | some existing_rpcs =>
      if verify then
        if existing_rpcs.contains rpc_url then
          .duplicate ("Error: RPC URL " ++ mask_url rpc_url
            ++ " already configured for chain " ++ toString chain_id ++ ".")
        else
          let new_config := (existing_rpcs ++ [rpc_url]).take (maxBackups + 1)
          .added ("Success: Backup RPC added for chain " ++ toString chain_id
              ++ ". Total RPCs: " ++ toString new_config.length)
            new_config
      else
        .unreachable ("Error: RPC URL " ++ mask_url rpc_url
          ++ " is unreachable or belongs to a different chain ID.")

/-- `rotate_rpc` (server.py lines 708-738) at the pool level: with at most
one entry it fails; otherwise `rpcs[1:] + [rpcs[0]]` becomes the new pool.
No health probe is consulted.  The chain-missing case is a separate guard in
the source and is not part of the pool-level transformation. -/
def rotate_rpc : List String → Except String (List String)
  | [] => .error "Error: No backup RPCs to rotate to."
  | [_] => .error "Error: No backup RPCs to rotate to."
  | r :: rest => .ok (rest ++ [r])

/-! ## server.py failover selector -/

/-- Successful outcome of `get_working_rpc`: the URL returned, the pool for
the chain afterwards, and whether `save_config` was called (it is called
exactly when the pool was reassigned, i.e. when the healthy endpoint was
found at an index greater than zero). -/
structure ResolveOk where
  url : String
  pool : List String
  saved : Bool
deriving Repr, DecidableEq

/-- The loop of `get_working_rpc` (server.py lines 191-219).  `rpcs` is the
pool being walked (the list comprehension on line 212-214 ranges over the
whole of it), `i` the current index, `failed` the `failed_rpcs`
accumulator.  An endpoint already recorded as failed is skipped; a healthy
endpoint at index 0 is returned with the pool untouched; a healthy endpoint
at a later index becomes the head of a pool from which it and every failed
endpoint have been filtered out; an unhealthy endpoint is appended to
`failed`.  Exhausting the pool yields the failed list. -/
def get_working_rpcAux (probe : String → Bool) (rpcs : List String) :
    Nat → List String → List String → Except (List String) ResolveOk
  | _, failed, [] => .error failed
  | i, failed, r :: rest =>
    if failed.contains r then
      get_working_rpcAux probe rpcs (i + 1) failed rest
    else if probe r then
      if 0 < i then
        .ok ⟨r, r :: rpcs.filter (fun x => !((r :: failed).contains x)), true⟩
      else
        .ok ⟨r, rpcs, false⟩
    else
      get_working_rpcAux probe rpcs (i + 1) (failed ++ [r]) rest

/-- `get_working_rpc`'s walk over one chain's pool, starting at index 0 with
no recorded failures. -/
def get_working_rpc (probe : String → Bool) (pool : List String) :
    Except (List String) ResolveOk :=
  get_working_rpcAux probe pool 0 [] pool

/-- The message of the ValueError raised on pool exhaustion (server.py lines
221-225): the first three failed endpoints in masked form, then `...` iff
more than three failed. -/
def all_rpcs_failed_message (chain_id : Int) (failed : List String) : String :=
  "All RPCs failed for chain " ++ toString chain_id ++ ". Tried: "
    ++ String.intercalate ", " ((failed.take 3).map mask_url)
    ++ (if failed.length > 3 then "..." else "")

/-- Failures of `get_working_rpc` (server.py lines 183-186 and 221-225). -/
inductive ResolveError where
  | invalidChainId (msg : String)
  | noConfig (msg : String)
  | allFailed (msg : String)
deriving Repr, DecidableEq

/-- `get_working_rpc` over the whole `RPC_CONFIG` mapping: validate the
chain id, look the chain up, walk its pool; on promotion the mapping is
updated at that chain only and `save_config` runs (third component true). -/
def get_working_rpc_state (probe : String → Bool)
    (cfg : Int → Option (List String)) (chain_id : Int) :
    Except ResolveError (String × (Int → Option (List String)) × Bool) :=
  match validate_chain_id chain_id with
  | .error e => .error (.invalidChainId e.message)
  | .ok _ =>
    match cfg chain_id with
    | none =>
      .error (.noConfig ("No RPC configuration for chain ID "
        ++ toString chain_id))
    | some rpcs =>
      match get_working_rpc probe rpcs with
      | .ok res =>
        if res.saved then
          .ok (res.url,
            fun c => if c = chain_id then some res.pool else cfg c, true)
        else
          .ok (res.url, cfg, false)
      | .error failed =>
        .error (.allFailed (all_rpcs_failed_message chain_id failed))

/-! ## server.py discovery -/

/-- One record of the remote chain registry, as consumed by
`query_rpc_urls`: a chain id and its raw candidate endpoint strings. -/
structure ChainRecord where
  chainId : Int
  rpc : List String
deriving Repr

/-- Whether `pat` occurs as a contiguous substring of the character list. -/
def containsSub (pat : List Char) : List Char → Bool
  | [] => pat.isEmpty
  | c :: rest => pat.isPrefixOf (c :: rest) || containsSub pat rest

/-- The candidate filter of `query_rpc_urls` (server.py line 359): the raw
string starts with "http" and contains no unresolved template marker (the
two characters dollar, open brace). -/
def discovery_keep (r : String) : Bool :=
  "http".data.isPrefixOf r.data && !containsSub "$\x7b".data r.data

/-- Candidate collection of `query_rpc_urls` (server.py lines 353-362):
records matching the chain id contribute their endpoint lists, each
shuffled (the permutation chosen by `random.shuffle` is a parameter here),
filtered by `discovery_keep`, and the combined list is capped to its first
10 entries. -/
def discovery_candidates (chain_id : Int) (chains : List ChainRecord)
    (shuffle : List String → List String) : List String :=
  ((chains.filter (fun c => c.chainId = chain_id)).flatMap
    (fun c => (shuffle c.rpc).filter discovery_keep)).take 10

/-- The result of `query_rpc_urls` (server.py lines 353-395): the
candidates that pass `verify_rpc` (modelled by `probe`; the thread pool
collects them in probe-completion order, which this sequential model fixes
to candidate order - the claims below do not depend on the order), or the
explicit no-reliable-endpoints error when none pass. -/
def query_rpc_urls (probe : String → Bool) (chain_id : Int)
    (chains : List ChainRecord) (shuffle : List String → List String) :
    List String :=
  let reliable := (discovery_candidates chain_id chains shuffle).filter probe
  if reliable.isEmpty then
    ["Error: No reliable RPC URLs found for this chain ID."]
  else reliable

/-! ## server.py health checker

server.py imports names from `mcp_blockchain_rail.logging_config` but never
imports the `logging` module itself, so the module-level name `logging` is
unbound; evaluating `logging.WARNING` / `logging.INFO` / `logging.ERROR` in
the arguments of any `log_with_context` call raises `NameError`.  The
embedding below carries this exception semantics explicitly. -/

/-- A Python exception escaping a modelled call. -/
inductive PyError where
  | nameError (name : String)
  | exc (msg : String)
deriving Repr, DecidableEq

/-- Evaluation of the module-level name `logging` in server.py: there is no
binding for it (lines 1-27 import everything else), so it raises
`NameError`. -/
def loggingName : Except PyError Nat := .error (.nameError "logging")

/-- A `log_with_context(logger, logging.LEVEL, ...)` call in server.py: the
argument `logging.LEVEL` is evaluated first and raises. -/
def logCall : Except PyError Unit := do
  let _ ← loggingName
  pure ()

/-- Outcomes of the three Web3 network interactions performed by
`health_check_rpc`; each may raise (`.error` carries the message). -/
structure Web3Probe where
  isConnected : Except String Bool
  ethChainId : Except String Nat
  ethGetBalance : Except String Nat

/-- Lift a raising network interaction into the function body. -/
def liftExc {α : Type} : Except String α → Except PyError α
  | .ok a => .ok a
  | .error m => .error (.exc m)

/-- The dict returned by `health_check_rpc` (server.py docstring, lines
54-56). -/
structure HealthResult where
  healthy : Bool
  chain_id : Option Nat
  latency_ms : Nat
  error : String
deriving Repr, DecidableEq

/-- `str(e)` for the exception caught by `health_check_rpc`'s handler. -/
def pyErrorMessage : PyError → String
  | .nameError n => "name '" ++ n ++ "' is not defined"
  | .exc m => m

/-- `health_check_rpc` (server.py lines 46-129) with explicit exception
semantics: the try-body probes connectivity, chain id, and one balance
read, logging on every branch; the `except Exception` handler converts any
exception from the body into an unhealthy result - but first performs its
own logging call, whose `logging.ERROR` argument raises `NameError`. -/
def health_check_rpc (chain_id : Nat) (w3 : Web3Probe) (latency : Nat) :
    Except PyError HealthResult :=
  let body : Except PyError HealthResult := do
    let conn ← liftExc w3.isConnected
    if !conn then
      logCall
      pure ⟨false, none, 0, "Not connected"⟩
    else do
      let cid ← liftExc w3.ethChainId
      if cid ≠ chain_id then do
        logCall
        pure ⟨false, some cid, 0,
          "Wrong chain ID (expected " ++ toString chain_id ++ ")"⟩
      else do
        let _ ← liftExc w3.ethGetBalance
        logCall
        pure ⟨true, some chain_id, latency, ""⟩
  match body with
  | .ok r => .ok r
  | .error e => do
    logCall
    pure ⟨false, none, 0, pyErrorMessage e⟩

/-! ## Theorems -/

/-- Reduction of a bind whose first argument already succeeded. -/
theorem bind_ok_red {α β : Type} (a : α) (f : α → Except PyError β) :
    (Except.ok a >>= f) = f a := rfl

/-- Reduction of a bind whose first argument already raised. -/
theorem bind_error_red {α β : Type} (e : PyError) (f : α → Except PyError β) :
    ((Except.error e : Except PyError α) >>= f) = Except.error e := rfl

/-- On a pool with at least two entries, `rotate_rpc` succeeds and produces
the one-step left rotation of the pool. -/
theorem rotate_rpc_eq_rotate (l : List String) (h : 2 ≤ l.length) :
    rotate_rpc l = .ok (l.rotate 1) := by
  match l with
  | [] => simp at h
  | [x] => simp at h
  | a :: b :: t =>
    show Except.ok (b :: (t ++ [a])) = Except.ok ((a :: b :: t).rotate 1)
    rw [show (1 : Nat) = 0 + 1 from rfl, List.rotate_cons_succ,
      List.rotate_zero]
    rfl

/-- Iterating `rotate_rpc` through `Except.bind` rotates the pool by the
iteration count. -/
theorem rotate_rpc_iterate (l : List String) (h : 2 ≤ l.length) (k : Nat) :
    (fun e => Except.bind e rotate_rpc)^[k] (.ok l) = .ok (l.rotate k) := by
  induction k with
  | zero => simp
  | succ n ih =>
    rw [Function.iterate_succ_apply', ih]
    show rotate_rpc (l.rotate n) = Except.ok (l.rotate (n + 1))
    rw [rotate_rpc_eq_rotate _ (by rw [List.length_rotate]; exact h),
      List.rotate_rotate]

/-- C7: `rotate_rpc` on a pool with at least 2 entries is a cyclic left
shift - the element at index 0 moves to the tail and all others shift left
by one (the result is `drop 1 ++ take 1`), no endpoint is added or removed
(the result is a permutation of the pool), and applying the rotation N
times, where N is the pool size, returns the pool to its original order.
No health probe is consulted (`rotate_rpc` takes none). -/
theorem rotate_is_cyclic_left_shift (l : List String) (h : 2 ≤ l.length) :
    (∃ q, rotate_rpc l = .ok q ∧ List.Perm q l ∧ q = l.drop 1 ++ l.take 1) ∧
    (fun e => Except.bind e rotate_rpc)^[l.length] (.ok l) = .ok l := by
  refine ⟨⟨l.rotate 1, rotate_rpc_eq_rotate l h, List.rotate_perm l 1,
    List.rotate_eq_drop_append_take (by omega)⟩, ?_⟩
  rw [rotate_rpc_iterate l h, List.rotate_length]

/-- Witness for C7 on a concrete three-endpoint pool. -/
theorem rotate_is_cyclic_left_shift_witness :
    (∃ q, rotate_rpc ["http://a.com", "http://b.com", "http://c.com"] =
        .ok q ∧
      List.Perm q ["http://a.com", "http://b.com", "http://c.com"] ∧
      q = (["http://a.com", "http://b.com", "http://c.com"] :
          List String).drop 1 ++
        (["http://a.com", "http://b.com", "http://c.com"] :
          List String).take 1) ∧
    (fun e => Except.bind e rotate_rpc)^[
      (["http://a.com", "http://b.com", "http://c.com"] :
        List String).length]
      (.ok ["http://a.com", "http://b.com", "http://c.com"]) =
      .ok ["http://a.com", "http://b.com", "http://c.com"] :=
  rotate_is_cyclic_left_shift ["http://a.com", "http://b.com", "http://c.com"]
    (by decide)

/-- C9: discovery never probes or returns more than the fixed ceiling of 10
candidate endpoints, and in a successful result (at least one candidate
passed its probe) every returned endpoint is one whose probe returned
true. -/
theorem discovery_capped_and_healthy (probe : String → Bool) (chain_id : Int)
    (chains : List ChainRecord) (shuffle : List String → List String)
    (h : (discovery_candidates chain_id chains shuffle).filter probe ≠ []) :
    (discovery_candidates chain_id chains shuffle).length ≤ 10 ∧
    query_rpc_urls probe chain_id chains shuffle =
      (discovery_candidates chain_id chains shuffle).filter probe ∧
    (query_rpc_urls probe chain_id chains shuffle).length ≤ 10 ∧
    ∀ r ∈ query_rpc_urls probe chain_id chains shuffle, probe r = true := by
  have hcap : (discovery_candidates chain_id chains shuffle).length ≤ 10 :=
    List.length_take_le _ _
  have hq : query_rpc_urls probe chain_id chains shuffle =
      (discovery_candidates chain_id chains shuffle).filter probe := by
    unfold query_rpc_urls
    rw [if_neg (by simpa [List.isEmpty_iff] using h)]
  refine ⟨hcap, hq, ?_, ?_⟩
  · rw [hq]; exact le_trans (List.length_filter_le _ _) hcap
  · intro r hr
    rw [hq] at hr
    exact (List.mem_filter.mp hr).2

/-- Witness for C9 on a concrete registry with one matching record. -/
theorem discovery_capped_and_healthy_witness :
    (discovery_candidates 1 [⟨1, ["http://a", "ws://b"]⟩] id).length ≤ 10 ∧
    query_rpc_urls (fun u => u == "http://a") 1 [⟨1, ["http://a", "ws://b"]⟩]
        id =
      (discovery_candidates 1 [⟨1, ["http://a", "ws://b"]⟩] id).filter
        (fun u => u == "http://a") ∧
    (query_rpc_urls (fun u => u == "http://a") 1
        [⟨1, ["http://a", "ws://b"]⟩] id).length ≤ 10 ∧
    ∀ r ∈ query_rpc_urls (fun u => u == "http://a") 1
        [⟨1, ["http://a", "ws://b"]⟩] id, (r == "http://a") = true :=
  discovery_capped_and_healthy (fun u => u == "http://a") 1
    [⟨1, ["http://a", "ws://b"]⟩] id (by decide)

/-- C4 (code bug): the claim states the health checker never throws, and
that is what the docstring and the unit tests of `health_check_rpc` also
expect, but the code does throw - on every input.  server.py has no
module-level binding for the name `logging`, so any exception or timeout in
the probe is caught by the handler, but the handler's own logging call
evaluates `logging.ERROR` and raises NameError; the logging calls on the
non-raising branches raise the same way before a result can be built. -/
theorem health_check_rpc_raises_from_logging (chain_id : Nat)
    (w3 : Web3Probe) (latency : Nat) :
    health_check_rpc chain_id w3 latency = .error (.nameError "logging") := by
  obtain ⟨ic, cid, bal⟩ := w3
  rcases ic with m | b
  · rfl
  · cases b
    · rfl
    · rcases cid with m | n
      · rfl
      · by_cases hn : n = chain_id
        · subst hn
          rcases bal with m | v
          · simp [health_check_rpc, liftExc, logCall, loggingName,
              bind_ok_red, bind_error_red]
          · simp [health_check_rpc, liftExc, logCall, loggingName,
              bind_ok_red, bind_error_red]
        · simp [health_check_rpc, liftExc, logCall, loggingName, hn,
            bind_ok_red, bind_error_red]

/-- C10: when the endpoint at index 0 of a chain's pool passes its health
probe, `get_working_rpc` returns it, the configuration mapping is returned
unchanged (no pool of any chain is modified), and `save_config` is not
called (third component false). -/
theorem resolve_healthy_primary_no_mutation (probe : String → Bool)
    (cfg : Int → Option (List String)) (chain_id : Int) (r : String)
    (rest : List String) (hpos : 0 < chain_id)
    (hcfg : cfg chain_id = some (r :: rest)) (hr : probe r = true) :
    get_working_rpc_state probe cfg chain_id = .ok (r, cfg, false) := by
  unfold get_working_rpc_state validate_chain_id
  rw [if_neg (by omega), hcfg]
  unfold get_working_rpc
  simp [get_working_rpcAux, hr]

/-- Witness for C10: a two-element pool whose primary probes healthy. -/
theorem resolve_healthy_primary_no_mutation_witness :
    get_working_rpc_state (fun u => u == "http://p.com")
      (fun c => if c = 1 then some ["http://p.com", "http://b.com"] else none)
      1 =
      .ok ("http://p.com",
        fun c =>
          if c = 1 then some ["http://p.com", "http://b.com"] else none,
        false) :=
  resolve_healthy_primary_no_mutation (fun u => u == "http://p.com")
    (fun c => if c = 1 then some ["http://p.com", "http://b.com"] else none)
    1 "http://p.com" ["http://b.com"] (by decide) rfl rfl

/-- When every endpoint of the remaining walk fails its probe and none was
recorded failed before, the walk exhausts the pool and reports the failed
endpoints in order. -/
theorem get_working_rpcAux_all_fail (probe : String → Bool)
    (rpcs : List String) (rest : List String) :
    ∀ (i : Nat) (failed : List String),
    (∀ r ∈ rest, probe r = false) → (∀ r ∈ rest, r ∉ failed) → rest.Nodup →
    get_working_rpcAux probe rpcs i failed rest = .error (failed ++ rest) := by
  induction rest with
  | nil =>
    intro i failed _ _ _
    simp [get_working_rpcAux]
  | cons r t ih =>
    intro i failed hprobe hnf hnd
    have hrf : failed.contains r = false := by
      simpa using hnf r (List.mem_cons_self r t)
    have hpr : probe r = false := hprobe r (List.mem_cons_self r t)
    rw [get_working_rpcAux, hrf]
    simp only [Bool.false_eq_true, if_false, hpr]
    rw [ih (i + 1) (failed ++ [r])
      (fun x hx => hprobe x (List.mem_cons_of_mem r hx))
      (fun x hx => by
        have hx1 : x ∉ failed := hnf x (List.mem_cons_of_mem r hx)
        have hx2 : x ≠ r := by
          intro he
          exact (List.nodup_cons.mp hnd).1 (he ▸ hx)
        simp [hx1, hx2])
      (List.nodup_cons.mp hnd).2]
    simp

/-- C8: when every endpoint in a non-empty pool fails its probe,
`get_working_rpc` raises the all-endpoints-failed error whose message names
the first (at most 3) failed endpoints in masked form, with the truncation
marker appended exactly when more than 3 endpoints failed. -/
theorem resolve_all_failed_error (probe : String → Bool)
    (cfg : Int → Option (List String)) (chain_id : Int) (pool : List String)
    (hpos : 0 < chain_id) (hcfg : cfg chain_id = some pool)
    (_hne : pool ≠ []) (hnd : pool.Nodup)
    (hfail : ∀ r ∈ pool, probe r = false) :
    get_working_rpc_state probe cfg chain_id =
      .error (.allFailed ("All RPCs failed for chain " ++ toString chain_id
        ++ ". Tried: "
        ++ String.intercalate ", " ((pool.take 3).map mask_url)
        ++ (if pool.length > 3 then "..." else ""))) := by
  have hwalk : get_working_rpc probe pool = .error pool := by
    unfold get_working_rpc
    simpa using
      get_working_rpcAux_all_fail probe pool pool 0 [] hfail (by simp) hnd
  unfold get_working_rpc_state validate_chain_id
  rw [if_neg (by omega), hcfg]
  simp [hwalk, all_rpcs_failed_message]

/-- Witness for C8: scenario B of the spec, a one-element pool whose only
endpoint fails its probe; the error names that endpoint. -/
theorem resolve_all_failed_error_witness :
    get_working_rpc_state (fun _ => false)
      (fun c => if c = 1 then some ["http://a.com"] else none) 1 =
      .error (.allFailed ("All RPCs failed for chain " ++ toString (1 : Int)
        ++ ". Tried: "
        ++ String.intercalate ", "
          (((["http://a.com"] : List String).take 3).map mask_url)
        ++ (if (["http://a.com"] : List String).length > 3 then "..."
            else ""))) :=
  resolve_all_failed_error (fun _ => false)
    (fun c => if c = 1 then some ["http://a.com"] else none) 1
    ["http://a.com"] (by decide) rfl (by decide) (by decide)
    (fun r _ => rfl)

/-- C1 counterexample: in scenario A (pool for chain 1 equal to the dead
endpoint followed by the good one, probe unhealthy on the first and healthy
on the second) `get_working_rpc` returns the good endpoint but the pool
afterwards is the one-element list holding only the promoted endpoint: the
failed former primary is dropped, not demoted to backup. -/
theorem failover_scenario_a_drops_failed :
    get_working_rpc (fun u => u == "http://good-b.com")
        ["http://dead-a.com", "http://good-b.com"] =
      .ok ⟨"http://good-b.com", ["http://good-b.com"], true⟩ ∧
    (⟨"http://good-b.com", ["http://good-b.com"], true⟩ : ResolveOk).pool ≠
      ["http://good-b.com", "http://dead-a.com"] :=
  ⟨rfl, by decide⟩

/-- C1 (amended): for a two-endpoint pool whose primary fails its probe and
whose backup passes, `get_working_rpc` returns the backup and the pool
afterwards holds only the promoted endpoint - the failed former primary is
removed from the pool (the reorder filters out every endpoint recorded as
failed), and the new pool is persisted (`save_config` runs). -/
theorem failover_promotes_and_drops_failed (probe : String → Bool)
    (a b : String) (hab : a ≠ b) (ha : probe a = false)
    (hb : probe b = true) :
    get_working_rpc probe [a, b] = .ok ⟨b, [b], true⟩ := by
  have hba : ([a].contains b) = false := by simpa using Ne.symm hab
  have h1 : get_working_rpcAux probe [a, b] 0 [] [a, b] =
      get_working_rpcAux probe [a, b] 1 [a] [b] := by
    rw [get_working_rpcAux]
    simp [ha]
  have h2 : get_working_rpcAux probe [a, b] 1 [a] [b] =
      .ok ⟨b, b :: List.filter (fun x => !((b :: [a]).contains x)) [a, b],
        true⟩ := by
    rw [get_working_rpcAux, hba]
    simp [hb]
  have h3 : List.filter (fun x => !((b :: [a]).contains x)) [a, b] = [] := by
    rw [List.filter_eq_nil_iff]
    intro x hx
    simp only [List.mem_cons, List.not_mem_nil, or_false] at hx
    rcases hx with rfl | rfl
    · simp
    · simp
  unfold get_working_rpc
  rw [h1, h2, h3]

/-- Witness for C1 (amended) at the concrete scenario-A endpoints. -/
theorem failover_promotes_and_drops_failed_witness :
    get_working_rpc (fun u => u == "http://good-b.com")
        ["http://dead-a.com", "http://good-b.com"] =
      .ok ⟨"http://good-b.com", ["http://good-b.com"], true⟩ :=
  failover_promotes_and_drops_failed (fun u => u == "http://good-b.com")
    "http://dead-a.com" "http://good-b.com" (by decide) rfl rfl

/-- Inversion of a successful `set_backup_rpc`: it only succeeds on a
non-duplicate endpoint, and the new pool is the truncated append. -/
theorem set_backup_rpc_added_inv (m : Nat) (v : Bool) (cid : Int)
    (u : String) (ex : List String) (msg : String) (pool : List String)
    (h : set_backup_rpc m v cid u (some ex) = .added msg pool) :
    u ∉ ex ∧ pool = (ex ++ [u]).take (m + 1) := by
  unfold set_backup_rpc at h
  cases hv : validate_chain_id cid with
  | error e => rw [hv] at h; cases h
  | ok w =>
    rw [hv] at h
    cases v with
    | false => cases h
    | true =>
      by_cases hdup : ex.contains u = true
      · simp only [if_true, hdup, if_pos] at h
        cases h
      · simp only [Bool.not_eq_true] at hdup
        simp only [if_true, hdup, Bool.false_eq_true, if_false] at h
        exact ⟨by simpa using hdup,
          ((BackupOutcome.added.injEq _ _ _ _).mp h.symm).2⟩

/-- C2 counterexample: adding a healthy, non-duplicate endpoint to an
already-full pool (max_backups 2, so three entries) reports success but
leaves the pool unchanged: the truncation drops the newly appended
endpoint itself instead of evicting a backup. -/
theorem addBackup_full_pool_drops_new :
    set_backup_rpc 2 true 1 "http://n.com"
        (some ["http://p.com", "http://b1.com", "http://b2.com"]) =
      .added "Success: Backup RPC added for chain 1. Total RPCs: 3"
        ["http://p.com", "http://b1.com", "http://b2.com"] ∧
    "http://n.com" ∉ ["http://p.com", "http://b1.com", "http://b2.com"] :=
  ⟨rfl, by decide⟩

/-- C2 (amended): `set_backup_rpc` never grows a pool beyond
`max_backups + 1` entries and never evicts the primary at index 0, but
when called on an already-full pool with a healthy non-duplicate endpoint
the pool is returned unchanged and the new endpoint is not added: the
append is truncated away from the tail. -/
theorem addBackup_bounded_and_full_pool_unchanged (m : Nat) (cid : Int)
    (u : String) (ex : List String) (msg : String) (pool : List String)
    (h : set_backup_rpc m true cid u (some ex) = .added msg pool) :
    pool.length ≤ m + 1 ∧ (ex ≠ [] → pool.head? = ex.head?) ∧
    (ex.length = m + 1 → pool = ex ∧ u ∉ pool) := by
  obtain ⟨hdup, hpool⟩ := set_backup_rpc_added_inv m true cid u ex msg pool h
  subst hpool
  refine ⟨List.length_take_le _ _, ?_, ?_⟩
  · intro hex
    match ex with
    | [] => exact absurd rfl hex
    | e :: ex2 =>
      show ((e :: (ex2 ++ [u])).take (m + 1)).head? = some e
      rw [List.take_succ_cons]
      rfl
  · intro hfull
    have hteq : (ex ++ [u]).take (m + 1) = ex := by
      rw [← hfull]; exact List.take_left ex [u]
    refine ⟨hteq, ?_⟩
    rw [hteq]
    exact hdup

/-- Witness for C2 (amended): adding a backup to a one-element pool. -/
theorem addBackup_bounded_and_full_pool_unchanged_witness :
    (["http://p.com", "http://b.com"] : List String).length ≤ 2 + 1 ∧
    ((["http://p.com"] : List String) ≠ [] →
      (["http://p.com", "http://b.com"] : List String).head? =
        (["http://p.com"] : List String).head?) ∧
    ((["http://p.com"] : List String).length = 2 + 1 →
      ["http://p.com", "http://b.com"] = ["http://p.com"] ∧
      "http://b.com" ∉ (["http://p.com", "http://b.com"] : List String)) :=
  addBackup_bounded_and_full_pool_unchanged 2 1 "http://b.com"
    ["http://p.com"] "Success: Backup RPC added for chain 1. Total RPCs: 2"
    ["http://p.com", "http://b.com"] rfl

/-- C3 counterexample: starting from a duplicate-free pool that already
contains the endpoint, `set_rpc` prepends it without removing the old
occurrence, so the resulting pool holds the endpoint twice - uniqueness is
not preserved by `set_rpc`. -/
theorem setPrimary_duplicate_breaks_uniqueness :
    (set_rpc 2 true 1 "http://b.com"
        (some ["http://a.com", "http://b.com"])).2 =
      some ["http://b.com", "http://a.com", "http://b.com"] ∧
    (["http://a.com", "http://b.com"] : List String).Nodup ∧
    ¬ (["http://b.com", "http://a.com", "http://b.com"] :
        List String).Nodup :=
  ⟨rfl, by decide, by decide⟩

/-- C3 (amended): `set_backup_rpc` and `rotate_rpc` preserve pool
uniqueness, and `set_rpc` preserves it exactly when the endpoint being set
is not already present; when it is already present, the old occurrence is
kept and the pool gains a duplicate (see the counterexample). -/
theorem pool_uniqueness_preservation :
    (∀ (m : Nat) (u : String) (ex : List String), ex.Nodup → u ∉ ex →
      (set_rpc_pool m u (some ex)).Nodup) ∧
    (∀ (m : Nat) (v : Bool) (cid : Int) (u : String) (ex : List String)
        (msg : String) (pool : List String), ex.Nodup →
      set_backup_rpc m v cid u (some ex) = .added msg pool → pool.Nodup) ∧
    (∀ (pool q : List String), pool.Nodup → rotate_rpc pool = .ok q →
      q.Nodup) := by
  refine ⟨?_, ?_, ?_⟩
  · intro m u ex hnd hnm
    show ((u :: ex).take (m + 1)).Nodup
    exact (List.take_sublist _ _).nodup (List.nodup_cons.mpr ⟨hnm, hnd⟩)
  · intro m v cid u ex msg pool hnd h
    obtain ⟨hdup, hpool⟩ := set_backup_rpc_added_inv m v cid u ex msg pool h
    subst hpool
    exact (List.take_sublist _ _).nodup
      (hnd.append (List.nodup_singleton u)
        (List.disjoint_singleton.mpr hdup))
  · intro pool q hnd h
    match pool, hnd, h with
    | [], _, h => exact Except.noConfusion h
    | [x], _, h => exact Except.noConfusion h
    | r :: s :: t, hnd, h =>
      cases h
      exact (List.perm_append_singleton r (s :: t)).symm.nodup hnd

/-- Witness for C3 (amended): rotating a duplicate-free two-element pool
keeps it duplicate-free. -/
theorem pool_uniqueness_preservation_witness :
    (["http://b.com", "http://a.com"] : List String).Nodup :=
  pool_uniqueness_preservation.2.2 ["http://a.com", "http://b.com"]
    ["http://b.com", "http://a.com"] (by decide) rfl

/-- Acceptance by `validate_rpc_url` is exactly a match of its regex. -/
theorem validate_rpc_url_ok_iff (url : String) :
    validate_rpc_url url = .ok url ↔ rpc_url_regex_matches url = true := by
  unfold validate_rpc_url
  split
  next h => simp [h]
  next h => simp [h]

/-- C5 counterexample: the well-formed endpoint URL
http://example.com/path - scheme http, host example.com, path /path - is
rejected by `validate_rpc_url` as InvalidInput (ConfigError code 2006),
because the regex forbids every slash after the scheme separator. -/
theorem url_with_path_rejected :
    validate_rpc_url "http://example.com/path" =
      .error ⟨"Invalid RPC URL: http://exam....com/path", ERR_INVALID_URL,
        some "URL must start with http:// or https://"⟩ ∧
    rpc_url_regex_matches "http://example.com/path" = false :=
  ⟨rfl, by decide⟩

/-- C5 (amended): `validate_rpc_url` accepts exactly the URLs of the form
scheme://host with scheme http or https and a nonempty host[:port]
containing no slash and no whitespace; in particular every URL with a path
component after the host is rejected as InvalidInput before any network
call (validation is a pure function of the string, consulted by `set_rpc`
before `verify_rpc`).  The hypothesis excludes a trailing newline, which
Python's `$` anchor would additionally tolerate. -/
theorem url_validation_scheme_host_only (host : String)
    (hnl : host.data.getLast? ≠ some '\n') :
    (validate_rpc_url ("http://" ++ host) = .ok ("http://" ++ host) ↔
      host.data ≠ [] ∧ ∀ c ∈ host.data, hostChar c = true) ∧
    (validate_rpc_url ("https://" ++ host) = .ok ("https://" ++ host) ↔
      host.data ≠ [] ∧ ∀ c ∈ host.data, hostChar c = true) := by
  have hdata1 : ("http://" ++ host).data =
      'h' :: 't' :: 't' :: 'p' :: ':' :: '/' :: '/' :: host.data := by simp
  have hdata2 : ("https://" ++ host).data =
      'h' :: 't' :: 't' :: 'p' :: 's' :: ':' :: '/' :: '/' :: host.data := by
    simp
  have htail : hostTail host.data =
      (!host.data.isEmpty && host.data.all hostChar) := by
    simp [hostTail, hnl]
  have hiff : (!host.data.isEmpty && host.data.all hostChar) = true ↔
      host.data ≠ [] ∧ ∀ c ∈ host.data, hostChar c = true := by
    simp [List.isEmpty_iff, List.all_eq_true]
  constructor
  · rw [validate_rpc_url_ok_iff,
      show rpc_url_regex_matches ("http://" ++ host) = hostTail host.data
        from by unfold rpc_url_regex_matches; rw [hdata1]; rfl,
      htail]
    exact hiff
  · rw [validate_rpc_url_ok_iff,
      show rpc_url_regex_matches ("https://" ++ host) = hostTail host.data
        from by unfold rpc_url_regex_matches; rw [hdata2]; rfl,
      htail]
    exact hiff

/-- Witness for C5 (amended) at the concrete host example.com. -/
theorem url_validation_scheme_host_only_witness :
    (validate_rpc_url ("http://" ++ "example.com") =
        .ok ("http://" ++ "example.com") ↔
      ("example.com" : String).data ≠ [] ∧
      ∀ c ∈ ("example.com" : String).data, hostChar c = true) ∧
    (validate_rpc_url ("https://" ++ "example.com") =
        .ok ("https://" ++ "example.com") ↔
      ("example.com" : String).data ≠ [] ∧
      ∀ c ∈ ("example.com" : String).data, hostChar c = true) :=
  url_validation_scheme_host_only "example.com" (by decide)

/-- C6 counterexample: the default configuration sets max_backups to 2, not
3, so `set_rpc` on a three-entry pool truncates at size 3 - the resulting
pool has 3 entries, not 4, and the oldest entry is dropped already at that
size. -/
theorem default_max_backups_is_two :
    MAX_BACKUPS = 2 ∧
    set_rpc_pool MAX_BACKUPS "http://d.com"
        (some ["http://a.com", "http://b.com", "http://c.com"]) =
      ["http://d.com", "http://a.com", "http://b.com"] ∧
    (set_rpc_pool MAX_BACKUPS "http://d.com"
        (some ["http://a.com", "http://b.com", "http://c.com"])).length ≠
      4 :=
  ⟨rfl, rfl, by decide⟩

/-- C6 (amended): under the default configuration max_backups is 2, so
every pool produced by `set_rpc` or `set_backup_rpc` has length at most 3
(one primary plus two backups), and truncation occurs exactly at that
size: the produced length is the minimum of 3 and one more than the
previous pool's length. -/
theorem default_pool_bound_three :
    MAX_BACKUPS = 2 ∧
    (∀ (u : String) (ex : List String),
      (set_rpc_pool MAX_BACKUPS u (some ex)).length =
        min (ex.length + 1) 3) ∧
    (∀ u : String, (set_rpc_pool MAX_BACKUPS u none).length = 1) ∧
    (∀ (cid : Int) (u : String) (ex : List String) (msg : String)
        (pool : List String),
      set_backup_rpc MAX_BACKUPS true cid u (some ex) = .added msg pool →
      pool.length = min (ex.length + 1) 3) := by
  refine ⟨rfl, ?_, fun u => rfl, ?_⟩
  · intro u ex
    show ((u :: ex).take 3).length = min (ex.length + 1) 3
    rw [List.length_take, List.length_cons, Nat.min_comm]
  · intro cid u ex msg pool h
    obtain ⟨hdup, hpool⟩ :=
      set_backup_rpc_added_inv MAX_BACKUPS true cid u ex msg pool h
    subst hpool
    show (((ex ++ [u]).take 3)).length = min (ex.length + 1) 3
    rw [List.length_take, List.length_append, List.length_singleton,
      Nat.min_comm]

/-- Witness for C6 (amended): adding a backup to a one-element pool under
the default bound yields a two-element pool. -/
theorem default_pool_bound_three_witness :
    (["http://p.com", "http://b.com"] : List String).length =
      min ((["http://p.com"] : List String).length + 1) 3 :=
  default_pool_bound_three.2.2.2 1 "http://b.com" ["http://p.com"]
    "Success: Backup RPC added for chain 1. Total RPCs: 2"
    ["http://p.com", "http://b.com"] rfl

end RAIL
